import Mathlib

/-!
Shallow embedding of `src/weather.py` (a small weather-summary module) and
proofs about it.  Python floats are modelled as exact rationals (`ℚ`);
Python's `round(x, 1)` is modelled as round-half-to-even on the exact value;
exceptions are modelled by an explicit error type (`Except`/`Option`).
-/

/-- Error kinds raised by the Python code.  `parseError` models Python's
`ValueError` (raised by `int(...)`, `float(...)` and
`datetime.fromisoformat`); the other constructors model `IndexError`,
`ZeroDivisionError` and `StopIteration`. -/
inductive PyErr where
  | parseError
  | indexError
  | zeroDivisionError
  | stopIteration
deriving DecidableEq, Repr

/-- Embeds `DEGREE_SYMBOL = u"\N{DEGREE SIGN}C"` (weather.py line 4). -/
def DEGREE_SYMBOL : String := "°C"

/-- Round-half-to-even of a rational to an integer: the model of the rounding
performed by Python's builtin `round` (banker's rounding) on an exact value. -/
def rndHalfEven (q : ℚ) : ℤ :=
  if q - (⌊q⌋ : ℚ) < 1/2 then ⌊q⌋
  else if (1:ℚ)/2 < q - (⌊q⌋ : ℚ) then ⌊q⌋ + 1
  else if ⌊q⌋ % 2 = 0 then ⌊q⌋ else ⌊q⌋ + 1

/-- Model of Python's `round(q, 1)`: round-half-to-even at one decimal place. -/
def py_round1 (q : ℚ) : ℚ := (rndHalfEven (q * 10) : ℚ) / 10

/-- Model of Python's `str`/f-string rendering of a float whose value is a
multiple of `1/10` (every temperature the module displays has been passed
through `round(_, 1)`): shortest decimal form with exactly one fractional
digit, e.g. `-6.7`, `2.0`. -/
def pyReprTenth (q : ℚ) : String :=
  let n : ℤ := ⌊q * 10⌋
  (if n < 0 then "-" else "") ++ toString (n.natAbs / 10) ++ "." ++ toString (n.natAbs % 10)

/-- Embeds `format_temperature` (weather.py lines 7-16):
`return f"{temp}{DEGREE_SYMBOL}"`. -/
def format_temperature (temp : ℚ) : String := pyReprTenth temp ++ DEGREE_SYMBOL

/-- Numeric core of `convert_f_to_c` (weather.py lines 30-40):
`(float(t) - 32) * 5 / 9` followed by `round(_, 1)`, on an argument that is
already a number (so `float` is the identity). -/
def convert_f_to_c_val (t : ℚ) : ℚ := py_round1 ((t - 32) * 5 / 9)

/-- Dynamic argument of `convert_f_to_c`: Python lets it be a number or a
string. -/
inductive PyVal where
  | num (q : ℚ)
  | str (s : String)

/-- Digit test and value for ASCII digit characters. -/
def charDigitVal (c : Char) : ℕ := c.toNat - 48

/-- Value of a string of ASCII digits, most significant first. -/
def digitsToNat (cs : List Char) : ℕ := cs.foldl (fun a c => 10 * a + charDigitVal c) 0

/-- Exact value of a decimal literal with integer part `ip` and a `k`-digit
fractional part `fp`. -/
def ratOfDecimal (ip fp k : ℕ) : ℚ := (ip : ℚ) + (fp : ℚ) / 10 ^ k

/-- Model of Python's builtin `float(s)` on strings, restricted to plain
decimal literals: optional surrounding spaces, optional sign, digits with an
optional fractional part (at least one digit overall).  Exponents, `inf`,
`nan` and underscores are outside the model. -/
def parseFloat (s : String) : Option ℚ :=
  let cs := ((s.data.dropWhile (· = ' ')).reverse.dropWhile (· = ' ')).reverse
  let core : List Char → Option ℚ := fun body =>
    let ip := body.takeWhile (· ≠ '.')
    match body.dropWhile (· ≠ '.') with
    | [] =>
        if ip ≠ [] && ip.all (·.isDigit) then some (ratOfDecimal (digitsToNat ip) 0 0)
        else none
    | '.' :: fp =>
        if (ip ≠ [] || fp ≠ []) && ip.all (·.isDigit) && fp.all (·.isDigit) then
          some (ratOfDecimal (digitsToNat ip) (digitsToNat fp) fp.length)
        else none
    | _ => none
  match cs with
  | '-' :: r => (core r).map (fun q => -q)
  | '+' :: r => core r
  | r => core r

/-- Model of Python's `float(...)` coercion applied to a dynamic value. -/
def pyToFloat : PyVal → Option ℚ
  | .num q => some q
  | .str s => parseFloat s

/-- Embeds `convert_f_to_c` (weather.py lines 30-40) on a dynamic argument:
`float(...)` raises `ValueError` on a non-numeric string. -/
def convert_f_to_c (t : PyVal) : Except PyErr ℚ :=
  match pyToFloat t with
  | none => .error .parseError
  | some q => .ok (convert_f_to_c_val q)

/-- Embeds `calculate_mean` (weather.py lines 43-54):
`sum(float_data) / len(float_data)`, raising `ZeroDivisionError` when the
list is empty. -/
def calculate_mean (weather_data : List ℚ) : Except PyErr ℚ :=
  match weather_data with
  | [] => .error .zeroDivisionError
  | _ => .ok (weather_data.sum / weather_data.length)

/-- Model of Python's builtin `min` on a (non-empty) list; `0` for `[]`,
which the source never hits. -/
def listMinQ : List ℚ → ℚ
  | [] => 0
  | x :: xs => xs.foldl min x

/-- Model of Python's builtin `max` on a (non-empty) list; `0` for `[]`,
which the source never hits. -/
def listMaxQ : List ℚ → ℚ
  | [] => 0
  | x :: xs => xs.foldl max x

/-- Model of Python's `list.index(v)`: index of the first occurrence
(the source only calls it on a value present in the list). -/
def pyIndex : List ℚ → ℚ → ℕ
  | [], _ => 0
  | x :: xs, v => if x = v then 0 else pyIndex xs v + 1

/-- Embeds `find_min` (weather.py lines 76-94): returns `()` (here `none`)
on empty input, else the minimum together with
`len(data) - 1 - data[::-1].index(min_value)`. -/
def find_min (weather_data : List ℚ) : Option (ℚ × ℕ) :=
  match weather_data with
  | [] => none
  | _ =>
      some (listMinQ weather_data,
        weather_data.length - 1 - pyIndex weather_data.reverse (listMinQ weather_data))

/-- Embeds `find_max` (weather.py lines 97-115): symmetric to `find_min`. -/
def find_max (weather_data : List ℚ) : Option (ℚ × ℕ) :=
  match weather_data with
  | [] => none
  | _ =>
      some (listMaxQ weather_data,
        weather_data.length - 1 - pyIndex weather_data.reverse (listMaxQ weather_data))

/-- Leap-year test of the proleptic Gregorian calendar (as used by
Python's `datetime.date`). -/
def isLeap (y : ℕ) : Bool := y % 4 = 0 && (y % 100 ≠ 0 || y % 400 = 0)

/-- Number of days of month `m` of year `y`. -/
def daysInMonth (y m : ℕ) : ℕ :=
  if m = 2 then (if isLeap y then 29 else 28)
  else if m = 4 || m = 6 || m = 9 || m = 11 then 30
  else 31

/-- Validity of calendar fields, as enforced by `datetime.date(y, m, d)`
(`MINYEAR = 1`, `MAXYEAR = 9999`). -/
def validDate (y m d : ℕ) : Bool :=
  1 ≤ y && y ≤ 9999 && 1 ≤ m && m ≤ 12 && 1 ≤ d && d ≤ daysInMonth y m

/-- Day of the week of a Gregorian date, `0 = Sunday`, via Sakamoto's
method; models `datetime.date.weekday` up to the naming convention. -/
def dayOfWeek (y m d : ℕ) : ℕ :=
  let t : List ℕ := [0, 3, 2, 5, 0, 3, 5, 1, 4, 6, 2, 4]
  let y := if m < 3 then y - 1 else y
  (y + y / 4 - y / 100 + y / 400 + t.getD (m - 1) 0 + d) % 7

/-- Full weekday names as produced by `strftime("%A")` in the C locale,
indexed with `0 = Sunday`. -/
def weekdayNames : List String :=
  ["Sunday", "Monday", "Tuesday", "Wednesday", "Thursday", "Friday", "Saturday"]

/-- Full month names as produced by `strftime("%B")` in the C locale,
indexed from `1 = January`. -/
def monthNames : List String :=
  ["January", "February", "March", "April", "May", "June",
   "July", "August", "September", "October", "November", "December"]

/-- Zero-padding to two digits, as `strftime("%d")` does for the day. -/
def pad2 (n : ℕ) : String := if n < 10 then "0" ++ toString n else toString n

/-- Rendering of `strftime("%A %d %B %Y")` from the calendar fields
(years below 1000 are outside the model, `%Y` padding being
platform-dependent there). -/
def renderLongDate (y m d : ℕ) : String :=
  weekdayNames.getD (dayOfWeek y m d) "" ++ " " ++ pad2 d ++ " "
    ++ monthNames.getD (m - 1) "" ++ " " ++ toString y

/-- Recognizer for the optional time part accepted after the 10-character
date by `datetime.fromisoformat`, restricted in the model to `HH:MM` and
`HH:MM:SS` with in-range fields (fractional seconds and offsets are outside
the model). -/
def timeOk (cs : List Char) : Bool :=
  match cs with
  | [h1, h2, c1, m1, m2] =>
      c1 = ':' && [h1, h2, m1, m2].all (·.isDigit)
        && digitsToNat [h1, h2] < 24 && digitsToNat [m1, m2] < 60
  | [h1, h2, c1, m1, m2, c2, s1, s2] =>
      c1 = ':' && c2 = ':' && [h1, h2, m1, m2, s1, s2].all (·.isDigit)
        && digitsToNat [h1, h2] < 24 && digitsToNat [m1, m2] < 60
        && digitsToNat [s1, s2] < 60
  | _ => false

/-- Extraction of the calendar fields from the 10 leading characters
`YYYY-MM-DD`, validated like `datetime.date`. -/
def parseYMD (a b c d s1 e f s2 g h : Char) : Option (ℕ × ℕ × ℕ) :=
  if s1 = '-' && s2 = '-' && [a, b, c, d, e, f, g, h].all (·.isDigit) then
    let y := digitsToNat [a, b, c, d]
    let m := digitsToNat [e, f]
    let dd := digitsToNat [g, h]
    if validDate y m dd then some (y, m, dd) else none
  else none

/-- Model of `datetime.fromisoformat` restricted to its date part: a
`YYYY-MM-DD` prefix, optionally followed by a one-character separator and a
time of day.  Returns the calendar fields, `none` on anything invalid. -/
def parseIso (s : String) : Option (ℕ × ℕ × ℕ) :=
  match s.data with
  | [a, b, c, d, s1, e, f, s2, g, h] => parseYMD a b c d s1 e f s2 g h
  | a :: b :: c :: d :: s1 :: e :: f :: s2 :: g :: h :: _sep :: rest =>
      if timeOk rest then parseYMD a b c d s1 e f s2 g h else none
  | _ => none

/-- Embeds `convert_date` (weather.py lines 19-27):
`datetime.fromisoformat(iso_string).strftime("%A %d %B %Y")`, raising
`ValueError` on an invalid ISO string. -/
def convert_date (iso_string : String) : Except PyErr String :=
  match parseIso iso_string with
  | none => .error .parseError
  | some (y, m, d) => .ok (renderLongDate y m d)

/-- Typed record built by the loader: `[row[0], int(row[1]), int(row[2])]`
(spec name `WeatherRecord`; the source stores it as a 3-element list). -/
structure WeatherRecord where
  date : String
  minTempF : ℤ
  maxTempF : ℤ
deriving DecidableEq, Repr

/-- Model of Python's builtin `int(s)` on strings: optional surrounding
spaces, optional sign, one or more ASCII digits (underscores and Unicode
digits are outside the model). -/
def pyInt (s : String) : Option ℤ :=
  let cs := ((s.data.dropWhile (· = ' ')).reverse.dropWhile (· = ' ')).reverse
  let core : List Char → Option ℕ := fun body =>
    if body ≠ [] && body.all (·.isDigit) then some (digitsToNat body) else none
  match cs with
  | '-' :: r => (core r).map (fun n => -(n : ℤ))
  | '+' :: r => (core r).map (fun n => (n : ℤ))
  | r => (core r).map (fun n => (n : ℤ))

/-- Body of the row loop of `load_data_from_csv` (weather.py lines 68-72):
empty rows are skipped; otherwise `row[0]` is read, then `int(row[1])`
(raising `IndexError` if the field is missing and `ValueError` — here
`parseError` — if it is not an integer literal), then `int(row[2])`. -/
def processRows : List (List String) → Except PyErr (List WeatherRecord)
  | [] => .ok []
  | r :: rs =>
      if r = [] then processRows rs
      else if r.length < 2 then .error .indexError
      else
        match pyInt (r.getD 1 "") with
        | none => .error .parseError
        | some lo =>
            if r.length < 3 then .error .indexError
            else
              match pyInt (r.getD 2 "") with
              | none => .error .parseError
              | some hi =>
                  (processRows rs).map (fun recs => ⟨r.getD 0 "", lo, hi⟩ :: recs)

/-- Embeds `load_data_from_csv` (weather.py lines 56-73) over the row list
produced by `csv.reader` (a blank line is the empty row `[]`).
`next(reader)` skips the header and raises `StopIteration` when the source
has no rows at all. -/
def load_data_from_csv (rows : List (List String)) : Except PyErr (List WeatherRecord) :=
  match rows with
  | [] => .error .stopIteration
  | _ :: rest => processRows rest

/-- Default record used for the total embedding of Python's list indexing
(`weather_data[i]`); all indexing below is within bounds. -/
def defaultRecord : WeatherRecord := ⟨"", 0, 0⟩

/-- Embeds `generate_summary` (weather.py lines 118-157).  The temperature
series are numbers, so `convert_f_to_c` takes its numeric path
(`convert_f_to_c_val`).  Unpacking `()` from `find_min`/`find_max` would
raise `ValueError`, and the date lookups and means propagate their own
errors; none of these fire on the inputs the source feeds them. -/
def generate_summary (weather_data : List WeatherRecord) : Except PyErr String :=
  if weather_data = [] then .ok ""
  else
    let min_temps := weather_data.map (fun day => (day.minTempF : ℚ))
    let max_temps := weather_data.map (fun day => (day.maxTempF : ℚ))
    match find_min min_temps, find_max max_temps with
    | some (overall_min, min_index), some (overall_max, max_index) =>
        let overall_min_c := convert_f_to_c_val overall_min
        let overall_max_c := convert_f_to_c_val overall_max
        match convert_date (weather_data.getD min_index defaultRecord).date,
              convert_date (weather_data.getD max_index defaultRecord).date with
        | .ok min_date, .ok max_date =>
            match calculate_mean (min_temps.map convert_f_to_c_val),
                  calculate_mean (max_temps.map convert_f_to_c_val) with
            | .ok mean_low, .ok mean_high =>
                let avg_low := py_round1 mean_low
                let avg_high := py_round1 mean_high
                .ok (toString weather_data.length ++ " Day Overview\n"
                  ++ "  The lowest temperature will be "
                  ++ format_temperature overall_min_c
                  ++ ", and will occur on " ++ min_date ++ ".\n"
                  ++ "  The highest temperature will be "
                  ++ format_temperature overall_max_c
                  ++ ", and will occur on " ++ max_date ++ ".\n"
                  ++ "  The average low this week is "
                  ++ format_temperature avg_low ++ ".\n"
                  ++ "  The average high this week is "
                  ++ format_temperature avg_high ++ ".\n")
            | .error e, _ => .error e
            | _, .error e => .error e
        | .error e, _ => .error e
        | _, .error e => .error e
    | _, _ => .error .parseError

/-- Accumulating loop of `generate_daily_summary` (weather.py lines 171-185):
`summary += ...` for each record in order, the date conversion raising on an
invalid date. -/
def dailyLoop (acc : String) : List WeatherRecord → Except PyErr String
  | [] => .ok acc
  | day :: rest =>
      match convert_date day.date with
      | .error e => .error e
      | .ok date_str =>
          dailyLoop (acc ++ "---- " ++ date_str ++ " ----\n"
            ++ "  Minimum Temperature: "
            ++ format_temperature (convert_f_to_c_val (day.minTempF : ℚ)) ++ "\n"
            ++ "  Maximum Temperature: "
            ++ format_temperature (convert_f_to_c_val (day.maxTempF : ℚ)) ++ "\n\n") rest

/-- Embeds `generate_daily_summary` (weather.py lines 160-187). -/
def generate_daily_summary (weather_data : List WeatherRecord) : Except PyErr String :=
  if weather_data = [] then .ok ""
  else dailyLoop "" weather_data

/-- Spec-side description of one block of the daily summary, following the
wording of the spec: a dash-decorated date separator line, a minimum line, a
maximum line, then a blank line. -/
def dailyBlock (date_str : String) (day : WeatherRecord) : String :=
  "---- " ++ date_str ++ " ----\n"
    ++ "  Minimum Temperature: "
    ++ format_temperature (convert_f_to_c_val (day.minTempF : ℚ)) ++ "\n"
    ++ "  Maximum Temperature: "
    ++ format_temperature (convert_f_to_c_val (day.maxTempF : ℚ)) ++ "\n\n"

/-- Date string a record renders to, defaulting to `""` when the date does
not parse (used only to phrase hypotheses). -/
def okDateStr (day : WeatherRecord) : String :=
  match convert_date day.date with
  | .ok s => s
  | .error _ => ""

/-- Record a well-formed CSV row maps to (spec-side reading of the loader's
per-row work). -/
def rowToRecord (r : List String) : WeatherRecord :=
  ⟨r.getD 0 "", (pyInt (r.getD 1 "")).getD 0, (pyInt (r.getD 2 "")).getD 0⟩

/-- ASCII digit character of a digit value. -/
def natDigitChar (k : ℕ) : Char :=
  (['0', '1', '2', '3', '4', '5', '6', '7', '8', '9']).getD k '0'

/-- Canonical `YYYY-MM-DD` string of calendar fields (spec-side, used to
quantify over ISO inputs of `convert_date`). -/
def isoDateString (y m d : ℕ) : String :=
  ⟨[natDigitChar (y / 1000), natDigitChar (y / 100 % 10),
    natDigitChar (y / 10 % 10), natDigitChar (y % 10), '-',
    natDigitChar (m / 10), natDigitChar (m % 10), '-',
    natDigitChar (d / 10), natDigitChar (d % 10)]⟩

lemma getD_eq_getElem?_getD_q (l : List ℚ) (i : ℕ) : l.getD i 0 = (l[i]?).getD 0 :=
  List.getD_eq_getElem?_getD l i 0

lemma foldl_min_le_init (xs : List ℚ) : ∀ x : ℚ, xs.foldl min x ≤ x := by
  induction xs with
  | nil => intro x; simp
  | cons a as ih =>
      intro x
      calc (a :: as).foldl min x = as.foldl min (min x a) := rfl
        _ ≤ min x a := ih (min x a)
        _ ≤ x := min_le_left x a

lemma foldl_min_le_mem (xs : List ℚ) : ∀ x y : ℚ, y ∈ xs → xs.foldl min x ≤ y := by
  induction xs with
  | nil => intro x y hy; cases hy
  | cons a as ih =>
      intro x y hy
      rcases List.mem_cons.mp hy with rfl | hy
      · calc (y :: as).foldl min x = as.foldl min (min x y) := rfl
          _ ≤ min x y := foldl_min_le_init as (min x y)
          _ ≤ y := min_le_right x y
      · exact ih (min x a) y hy

lemma foldl_min_mem (xs : List ℚ) : ∀ x : ℚ, xs.foldl min x = x ∨ xs.foldl min x ∈ xs := by
  induction xs with
  | nil => intro x; left; rfl
  | cons a as ih =>
      intro x
      rcases ih (min x a) with h | h
      · rcases min_choice x a with h2 | h2
        · left; calc (a :: as).foldl min x = as.foldl min (min x a) := rfl
            _ = min x a := h
            _ = x := h2
        · right; apply List.mem_cons.mpr; left
          calc (a :: as).foldl min x = as.foldl min (min x a) := rfl
            _ = min x a := h
            _ = a := h2
      · right; exact List.mem_cons.mpr (Or.inr h)

lemma foldl_max_init_le (xs : List ℚ) : ∀ x : ℚ, x ≤ xs.foldl max x := by
  induction xs with
  | nil => intro x; simp
  | cons a as ih =>
      intro x
      calc x ≤ max x a := le_max_left x a
        _ ≤ as.foldl max (max x a) := ih (max x a)
        _ = (a :: as).foldl max x := rfl

lemma foldl_max_mem_le (xs : List ℚ) : ∀ x y : ℚ, y ∈ xs → y ≤ xs.foldl max x := by
  induction xs with
  | nil => intro x y hy; cases hy
  | cons a as ih =>
      intro x y hy
      rcases List.mem_cons.mp hy with rfl | hy
      · calc y ≤ max x y := le_max_right x y
          _ ≤ as.foldl max (max x y) := foldl_max_init_le as (max x y)
          _ = (y :: as).foldl max x := rfl
      · exact ih (max x a) y hy

lemma foldl_max_mem (xs : List ℚ) : ∀ x : ℚ, xs.foldl max x = x ∨ xs.foldl max x ∈ xs := by
  induction xs with
  | nil => intro x; left; rfl
  | cons a as ih =>
      intro x
      rcases ih (max x a) with h | h
      · rcases max_choice x a with h2 | h2
        · left; calc (a :: as).foldl max x = as.foldl max (max x a) := rfl
            _ = max x a := h
            _ = x := h2
        · right; apply List.mem_cons.mpr; left
          calc (a :: as).foldl max x = as.foldl max (max x a) := rfl
            _ = max x a := h
            _ = a := h2
      · right; exact List.mem_cons.mpr (Or.inr h)

lemma listMinQ_le (l : List ℚ) (y : ℚ) (hy : y ∈ l) : listMinQ l ≤ y := by
  cases l with
  | nil => cases hy
  | cons a as =>
      rcases List.mem_cons.mp hy with rfl | hy
      · exact foldl_min_le_init as y
      · exact foldl_min_le_mem as a y hy

lemma listMinQ_mem (l : List ℚ) (hl : l ≠ []) : listMinQ l ∈ l := by
  cases l with
  | nil => exact absurd rfl hl
  | cons a as =>
      rcases foldl_min_mem as a with h | h
      · exact List.mem_cons.mpr (Or.inl (by simpa [listMinQ] using h))
      · exact List.mem_cons.mpr (Or.inr (by simpa [listMinQ] using h))

lemma le_listMaxQ (l : List ℚ) (y : ℚ) (hy : y ∈ l) : y ≤ listMaxQ l := by
  cases l with
  | nil => cases hy
  | cons a as =>
      rcases List.mem_cons.mp hy with rfl | hy
      · exact foldl_max_init_le as y
      · exact foldl_max_mem_le as a y hy

lemma listMaxQ_mem (l : List ℚ) (hl : l ≠ []) : listMaxQ l ∈ l := by
  cases l with
  | nil => exact absurd rfl hl
  | cons a as =>
      rcases foldl_max_mem as a with h | h
      · exact List.mem_cons.mpr (Or.inl (by simpa [listMaxQ] using h))
      · exact List.mem_cons.mpr (Or.inr (by simpa [listMaxQ] using h))

lemma pyIndex_lt_length {l : List ℚ} {v : ℚ} (h : v ∈ l) : pyIndex l v < l.length := by
  induction l with
  | nil => cases h
  | cons a as ih =>
      by_cases hav : a = v
      · simp [pyIndex, hav]
      · have hv : v ∈ as := by
          rcases List.mem_cons.mp h with rfl | hv
          · exact absurd rfl hav
          · exact hv
        simpa [pyIndex, hav] using Nat.succ_lt_succ (ih hv)

lemma pyIndex_getD {l : List ℚ} {v : ℚ} (h : v ∈ l) : l.getD (pyIndex l v) 0 = v := by
  induction l with
  | nil => cases h
  | cons a as ih =>
      by_cases hav : a = v
      · simp [pyIndex, hav]
      · have hv : v ∈ as := by
          rcases List.mem_cons.mp h with rfl | hv
          · exact absurd rfl hav
          · exact hv
        simpa [pyIndex, hav] using ih hv

lemma pyIndex_first {l : List ℚ} {v : ℚ} : ∀ j, j < pyIndex l v → l.getD j 0 ≠ v := by
  induction l with
  | nil => intro j hj; simp [pyIndex] at hj
  | cons a as ih =>
      intro j hj
      by_cases hav : a = v
      · simp [pyIndex, hav] at hj
      · rw [pyIndex] at hj
        simp only [if_neg hav] at hj
        cases j with
        | zero => simpa using hav
        | succ j' => simpa using ih j' (by omega)

lemma lastOcc_spec (l : List ℚ) (v : ℚ) (hv : v ∈ l) :
    l.length - 1 - pyIndex l.reverse v < l.length ∧
    l.getD (l.length - 1 - pyIndex l.reverse v) 0 = v ∧
    ∀ j, l.length - 1 - pyIndex l.reverse v < j → j < l.length → l.getD j 0 ≠ v := by
  have hvr : v ∈ l.reverse := List.mem_reverse.mpr hv
  have hk : pyIndex l.reverse v < l.length := by
    simpa using pyIndex_lt_length hvr
  have hlen : 0 < l.length := List.length_pos.mpr (List.ne_nil_of_mem hv)
  refine ⟨by omega, ?_, ?_⟩
  · have h1 : l.reverse.getD (pyIndex l.reverse v) 0 = v := pyIndex_getD hvr
    rw [List.getD_eq_getElem?_getD, List.getElem?_reverse hk,
      ← List.getD_eq_getElem?_getD] at h1
    exact h1
  · intro j hij hjl hcon
    have hj' : l.length - 1 - j < pyIndex l.reverse v := by omega
    have := pyIndex_first (l := l.reverse) (v := v) (l.length - 1 - j) hj'
    apply this
    rw [List.getD_eq_getElem?_getD, List.getElem?_reverse (by omega),
      ← List.getD_eq_getElem?_getD]
    have hjj : l.length - 1 - (l.length - 1 - j) = j := by omega
    rw [hjj]
    exact hcon

lemma find_min_eq (l : List ℚ) (h : l ≠ []) :
    find_min l = some (listMinQ l, l.length - 1 - pyIndex l.reverse (listMinQ l)) := by
  cases l with
  | nil => exact absurd rfl h
  | cons a as => rfl

lemma find_max_eq (l : List ℚ) (h : l ≠ []) :
    find_max l = some (listMaxQ l, l.length - 1 - pyIndex l.reverse (listMaxQ l)) := by
  cases l with
  | nil => exact absurd rfl h
  | cons a as => rfl

/-- C1: on every non-empty list, `find_min` returns the minimum value paired
with the index of its last occurrence, `find_max` symmetrically returns the
maximum with the index of its last occurrence, and in particular
`find_min [3,1,4,1,5] = (1, 3)` and `find_max [3,1,4,1,5] = (5, 4)`. -/
theorem C1_find_min_find_max_last_occurrence (l : List ℚ) (h : l ≠ []) :
    (∃ m i, find_min l = some (m, i) ∧ i < l.length ∧ l.getD i 0 = m ∧
      (∀ x ∈ l, m ≤ x) ∧ ∀ j, i < j → j < l.length → l.getD j 0 ≠ m) ∧
    (∃ M k, find_max l = some (M, k) ∧ k < l.length ∧ l.getD k 0 = M ∧
      (∀ x ∈ l, M ≥ x) ∧ ∀ j, k < j → j < l.length → l.getD j 0 ≠ M) ∧
    find_min [3, 1, 4, 1, 5] = some (1, 3) ∧ find_max [3, 1, 4, 1, 5] = some (5, 4) := by
  refine ⟨?_, ?_, ?_, ?_⟩
  · obtain ⟨h1, h2, h3⟩ := lastOcc_spec l (listMinQ l) (listMinQ_mem l h)
    exact ⟨listMinQ l, _, find_min_eq l h, h1, h2, fun x hx => listMinQ_le l x hx, h3⟩
  · obtain ⟨h1, h2, h3⟩ := lastOcc_spec l (listMaxQ l) (listMaxQ_mem l h)
    exact ⟨listMaxQ l, _, find_max_eq l h, h1, h2, fun x hx => le_listMaxQ l x hx, h3⟩
  · norm_num [find_min, listMinQ, pyIndex, min_def]
  · norm_num [find_max, listMaxQ, pyIndex, max_def]

/-- Witness for C1 at the concrete input `[3, 1, 4, 1, 5]`. -/
theorem C1_witness :
    find_min [3, 1, 4, 1, 5] = some (1, 3) ∧ find_max [3, 1, 4, 1, 5] = some (5, 4) :=
  (C1_find_min_find_max_last_occurrence [3, 1, 4, 1, 5] (by simp)).2.2

/-- C5: on empty input `find_min` and `find_max` return the explicit empty
result (not an error, not a number), and `generate_summary` and
`generate_daily_summary` short-circuit to the empty string, succeeding (so
`calculate_mean` — which does fail on empty input — is never reached). -/
theorem C5_empty_input_sentinels :
    find_min [] = none ∧ find_max [] = none ∧
    generate_summary [] = .ok "" ∧ generate_daily_summary [] = .ok "" ∧
    calculate_mean [] = .error .zeroDivisionError :=
  ⟨rfl, rfl, rfl, rfl, rfl⟩

/-- C6: `calculate_mean` of a non-empty list is its arithmetic mean, it
fails exactly on the empty list, and `calculate_mean [1,2,3] = 2`. -/
theorem C6_calculate_mean_spec :
    (∀ l : List ℚ, l ≠ [] → calculate_mean l = .ok (l.sum / l.length)) ∧
    (∀ l : List ℚ, (∃ e, calculate_mean l = .error e) ↔ l = []) ∧
    calculate_mean [1, 2, 3] = .ok 2 := by
  refine ⟨?_, ?_, ?_⟩
  · intro l hl
    cases l with
    | nil => exact absurd rfl hl
    | cons a as => rfl
  · intro l
    constructor
    · rintro ⟨e, he⟩
      cases l with
      | nil => rfl
      | cons a as => simp [calculate_mean] at he
    · rintro rfl
      exact ⟨.zeroDivisionError, rfl⟩
  · norm_num [calculate_mean, List.sum_cons, List.sum_nil]

/-- Witness for C6 at the concrete input `[1, 2, 3]`. -/
theorem C6_witness : calculate_mean [1, 2, 3] = .ok 2 := by
  have h := C6_calculate_mean_spec.1 [1, 2, 3] (by simp)
  rw [h]
  norm_num [List.sum_cons, List.sum_nil]

/-- C10: the loader returns the empty record list for a source with only a
header row, but fails (the `next(reader)` call raises `StopIteration`) on a
source with no rows at all. -/
theorem C10_loader_empty_sources :
    load_data_from_csv [] = .error .stopIteration ∧
    ∀ header, load_data_from_csv [header] = .ok [] :=
  ⟨rfl, fun _ => rfl⟩

lemma rndHalfEven_near (x : ℚ) : |(rndHalfEven x : ℚ) - x| ≤ 1/2 := by
  have h1 : (⌊x⌋ : ℚ) ≤ x := Int.floor_le x
  have h2 : x < ⌊x⌋ + 1 := Int.lt_floor_add_one x
  unfold rndHalfEven
  split_ifs with ha hb hc <;> rw [abs_le] <;> constructor <;> push_cast <;> linarith

lemma rndHalfEven_tie_even (x : ℚ) (h : x - ⌊x⌋ = 1/2) : rndHalfEven x % 2 = 0 := by
  unfold rndHalfEven
  split_ifs with ha hb hc
  · exfalso; rw [h] at ha; exact absurd ha (by norm_num)
  · exfalso; rw [h] at hb; exact absurd hb (by norm_num)
  · exact hc
  · omega

lemma py_round1_near (q : ℚ) : |py_round1 q - q| ≤ 1/20 := by
  have h := rndHalfEven_near (q * 10)
  rw [abs_le] at h ⊢
  unfold py_round1
  constructor <;> [linarith [h.1]; linarith [h.2]]

/-- C3: `convert_f_to_c` computes `(t - 32) * 5 / 9` rounded to one decimal
place, on a number directly and on a numeric string through parsing; it
fails with a `ParseError` on a non-numeric string.  The rounding is to the
nearest tenth (within `1/20`) and resolves exact ties to an even number of
tenths.  In particular `convert_f_to_c 32 = 0.0`, `convert_f_to_c 212 =
100.0` and `convert_f_to_c 98.6 = 37.0`. -/
theorem C3_convert_f_to_c_spec :
    (∀ q : ℚ, convert_f_to_c (.num q) = .ok (py_round1 ((q - 32) * 5 / 9))) ∧
    (∀ s q, parseFloat s = some q →
        convert_f_to_c (.str s) = .ok (py_round1 ((q - 32) * 5 / 9))) ∧
    (∀ s, parseFloat s = none → convert_f_to_c (.str s) = .error .parseError) ∧
    (∀ q : ℚ, |convert_f_to_c_val q - (q - 32) * 5 / 9| ≤ 1/20) ∧
    (∀ q : ℚ, (q - 32) * 5 / 9 * 10 - ⌊(q - 32) * 5 / 9 * 10⌋ = 1/2 →
        ∃ z : ℤ, convert_f_to_c_val q = (z : ℚ) / 10 ∧ z % 2 = 0) ∧
    convert_f_to_c (.num 32) = .ok 0 ∧ convert_f_to_c (.num 212) = .ok 100 ∧
    convert_f_to_c (.num (493/5)) = .ok 37 := by
  refine ⟨fun q => rfl, ?_, ?_, ?_, ?_, ?_, ?_, ?_⟩
  · intro s q h
    simp [convert_f_to_c, pyToFloat, h, convert_f_to_c_val]
  · intro s h
    simp [convert_f_to_c, pyToFloat, h]
  · intro q
    exact py_round1_near _
  · intro q h
    exact ⟨rndHalfEven ((q - 32) * 5 / 9 * 10), rfl, rndHalfEven_tie_even _ h⟩
  · norm_num [convert_f_to_c, pyToFloat, convert_f_to_c_val, py_round1, rndHalfEven]
  · norm_num [convert_f_to_c, pyToFloat, convert_f_to_c_val, py_round1, rndHalfEven]
  · norm_num [convert_f_to_c, pyToFloat, convert_f_to_c_val, py_round1, rndHalfEven]

/-- Witness for C3 at the concrete string input `"98.6"`. -/
theorem C3_witness : convert_f_to_c (.str "98.6") = .ok 37 := by
  have hp : parseFloat "98.6" = some (ratOfDecimal 98 6 1) := rfl
  have h := C3_convert_f_to_c_spec.2.1 "98.6" (ratOfDecimal 98 6 1) hp
  rw [h]
  norm_num [ratOfDecimal, py_round1, rndHalfEven]

/-- C4 counterexample: a non-empty data row with four fields — a wrong field
count — does not make the loader fail; the extra field is silently ignored
and the first three fields are loaded. -/
theorem C4_counterexample :
    load_data_from_csv [["date", "min", "max"], ["2020-01-01", "1", "2", "junk"]]
      = .ok [⟨"2020-01-01", 1, 2⟩] := rfl

/-- C4 (amended): the loader skips the header row and silently skips only
entirely-empty rows; a non-empty data row fails loudly when it has fewer
than three fields (an index error) or when its second or third field is not
a valid integer (a parse error); rows with more than three fields are
accepted with the extra fields ignored; a row is only ever loaded from an
actual successful integer parse of its second and third fields, never by
coercing a malformed field to zero. -/
theorem C4_loader_error_handling :
    (∀ header rest, load_data_from_csv (header :: rest) = processRows rest) ∧
    (∀ rs, processRows ([] :: rs) = processRows rs) ∧
    (∀ r rs, r ≠ [] → r.length < 3 → ∃ e, processRows (r :: rs) = .error e) ∧
    (∀ r rs, 2 ≤ r.length → pyInt (r.getD 1 "") = none →
        processRows (r :: rs) = .error .parseError) ∧
    (∀ r rs, 3 ≤ r.length → pyInt (r.getD 2 "") = none →
        processRows (r :: rs) = .error .parseError) ∧
    (∀ r rs res, r ≠ [] → processRows (r :: rs) = .ok res →
        ∃ lo hi rest, pyInt (r.getD 1 "") = some lo ∧ pyInt (r.getD 2 "") = some hi ∧
          res = ⟨r.getD 0 "", lo, hi⟩ :: rest ∧ processRows rs = .ok rest) := by
  refine ⟨fun _ _ => rfl, fun rs => rfl, ?_, ?_, ?_, ?_⟩
  · intro r rs hr hlen
    by_cases h2 : r.length < 2
    · exact ⟨.indexError, by simp [processRows, hr, h2]⟩
    · cases hp : pyInt (r.getD 1 "") with
      | none =>
          rw [List.getD_eq_getElem?_getD] at hp
          exact ⟨.parseError, by simp [processRows, hr, h2, hp]⟩
      | some lo =>
          rw [List.getD_eq_getElem?_getD] at hp
          exact ⟨.indexError, by simp [processRows, hr, h2, hp, hlen]⟩
  · intro r rs h2 hp
    have hr : r ≠ [] := by intro hh; subst hh; simp at h2
    have hn2 : ¬ r.length < 2 := by omega
    rw [List.getD_eq_getElem?_getD] at hp
    by_cases h3 : r.length < 3
    · simp [processRows, hr, hn2, hp, h3]
    · simp [processRows, hr, hn2, hp, h3]
  · intro r rs h3 hp
    have hr : r ≠ [] := by intro hh; subst hh; simp at h3
    have hn2 : ¬ r.length < 2 := by omega
    have hn3 : ¬ r.length < 3 := by omega
    rw [List.getD_eq_getElem?_getD] at hp
    cases hq : pyInt (r.getD 1 "") with
    | none => rw [List.getD_eq_getElem?_getD] at hq; simp [processRows, hr, hn2, hq]
    | some lo =>
        rw [List.getD_eq_getElem?_getD] at hq
        simp [processRows, hr, hn2, hn3, hq, hp]
  · intro r rs res hr hok
    simp only [processRows, if_neg hr] at hok
    by_cases h2 : r.length < 2
    · rw [if_pos h2] at hok; exact absurd hok (by simp)
    · rw [if_neg h2] at hok
      cases hq : pyInt (r.getD 1 "") with
      | none => rw [hq] at hok; exact absurd hok (by simp)
      | some lo =>
          rw [hq] at hok
          simp only [] at hok
          by_cases h3 : r.length < 3
          · rw [if_pos h3] at hok; exact absurd hok (by simp)
          · rw [if_neg h3] at hok
            cases hq2 : pyInt (r.getD 2 "") with
            | none => rw [hq2] at hok; exact absurd hok (by simp)
            | some hi =>
                rw [hq2] at hok
                simp only [] at hok
                cases hrec : processRows rs with
                | error e => rw [hrec] at hok; exact absurd hok (by simp [Except.map])
                | ok rest =>
                    rw [hrec] at hok
                    simp only [Except.map, Except.ok.injEq] at hok
                    exact ⟨lo, hi, rest, rfl, rfl, hok.symm, rfl⟩

/-- Witness for C4 at a concrete malformed row: the second field of
`["d", "x", "2"]` is not an integer, so the loader fails with a parse
error. -/
theorem C4_witness : processRows [["d", "x", "2"]] = .error .parseError :=
  C4_loader_error_handling.2.2.2.1 ["d", "x", "2"] [] (by norm_num) rfl

lemma processRows_wellFormed (rows : List (List String))
    (h : ∀ r ∈ rows, r.length = 3 ∧ (pyInt (r.getD 1 "")).isSome ∧ (pyInt (r.getD 2 "")).isSome) :
    processRows rows = .ok (rows.map rowToRecord) := by
  induction rows with
  | nil => rfl
  | cons r rs ih =>
      obtain ⟨h3, h1s, h2s⟩ := h r (List.mem_cons_self r rs)
      have hr : r ≠ [] := by intro hh; subst hh; simp at h3
      have hn2 : ¬ r.length < 2 := by omega
      have hn3 : ¬ r.length < 3 := by omega
      obtain ⟨lo, hlo⟩ := Option.isSome_iff_exists.mp h1s
      obtain ⟨hi, hhi⟩ := Option.isSome_iff_exists.mp h2s
      have hrec := ih (fun x hx => h x (List.mem_cons_of_mem r hx))
      rw [List.getD_eq_getElem?_getD] at hlo hhi
      simp [processRows, hr, hn2, hn3, hlo, hhi, hrec, Except.map, rowToRecord]

/-- C9: loading a well-formed CSV source (every data row has exactly three
fields, the numeric ones valid integers) yields exactly one record per data
row, in the original row order (the i-th record comes from the i-th row);
and re-deriving either summary from equal inputs yields equal outputs. -/
theorem C9_load_roundtrip_deterministic :
    (∀ header rows,
      (∀ r ∈ rows, r.length = 3 ∧ (pyInt (r.getD 1 "")).isSome ∧ (pyInt (r.getD 2 "")).isSome) →
      load_data_from_csv (header :: rows) = .ok (rows.map rowToRecord) ∧
      (rows.map rowToRecord).length = rows.length ∧
      ∀ i, i < rows.length →
        (rows.map rowToRecord).getD i defaultRecord = rowToRecord (rows.getD i [])) ∧
    (∀ a b : List WeatherRecord, a = b →
      generate_summary a = generate_summary b ∧
      generate_daily_summary a = generate_daily_summary b) := by
  constructor
  · intro header rows h
    refine ⟨processRows_wellFormed rows h, List.length_map rows rowToRecord, ?_⟩
    intro i hi
    simp [List.getD_eq_getElem?_getD, List.getElem?_map, List.getElem?_eq_getElem hi]
  · intro a b hab
    exact ⟨by rw [hab], by rw [hab]⟩

/-- Witness for C9 at a concrete two-row CSV source. -/
theorem C9_witness :
    load_data_from_csv
        [["date", "min", "max"], ["2021-07-06", "30", "80"], ["2021-07-07", "20", "90"]]
      = .ok [⟨"2021-07-06", 30, 80⟩, ⟨"2021-07-07", 20, 90⟩] := by
  have h := (C9_load_roundtrip_deterministic.1 ["date", "min", "max"]
    [["2021-07-06", "30", "80"], ["2021-07-07", "20", "90"]]
    (by
      intro r hr
      simp only [List.mem_cons, List.not_mem_nil, or_false] at hr
      rcases hr with rfl | rfl
      · exact ⟨rfl, rfl, rfl⟩
      · exact ⟨rfl, rfl, rfl⟩)).1
  rw [h]; rfl

lemma dailyLoop_concat (ws : List WeatherRecord) :
    ∀ acc, (∀ w ∈ ws, convert_date w.date = .ok (okDateStr w)) →
    dailyLoop acc ws =
      .ok (acc ++ (ws.map (fun w => dailyBlock (okDateStr w) w)).foldr (· ++ ·) "") := by
  induction ws with
  | nil => intro acc h; simp [dailyLoop]
  | cons w ws ih =>
      intro acc h
      have hw := h w (List.mem_cons_self w ws)
      rw [dailyLoop, hw]
      simp only []
      rw [ih _ (fun x hx => h x (List.mem_cons_of_mem w hx))]
      simp [dailyBlock, String.append_assoc]

/-- C7: on a non-empty record list whose dates parse, the daily summary is
the concatenation, in record order, of one block per record: a
dash-decorated date separator line, an indented minimum-temperature line
(value converted to Celsius, degree-Celsius unit), an indented
maximum-temperature line, then a blank line. -/
theorem C7_generate_daily_summary_blocks (ws : List WeatherRecord) (h : ws ≠ [])
    (hd : ∀ w ∈ ws, convert_date w.date = .ok (okDateStr w)) :
    generate_daily_summary ws =
      .ok ((ws.map (fun w => dailyBlock (okDateStr w) w)).foldr (· ++ ·) "") := by
  unfold generate_daily_summary
  rw [if_neg h, dailyLoop_concat ws "" hd, String.empty_append]

lemma format_temperature_of_floor (q : ℚ) (n : ℤ) (h : ⌊q * 10⌋ = n) :
    format_temperature q =
      ((if n < 0 then "-" else "") ++ toString (n.natAbs / 10) ++ "."
        ++ toString (n.natAbs % 10)) ++ DEGREE_SYMBOL := by
  simp only [format_temperature, pyReprTenth, h]

/-- Witness for C7 at the two concrete records of the spec's test data. -/
theorem C7_witness :
    generate_daily_summary [⟨"2021-07-06", 30, 80⟩, ⟨"2021-07-07", 20, 90⟩] =
      .ok ("---- Tuesday 06 July 2021 ----\n  Minimum Temperature: -1.1°C\n  Maximum Temperature: 26.7°C\n\n---- Wednesday 07 July 2021 ----\n  Minimum Temperature: -6.7°C\n  Maximum Temperature: 32.2°C\n\n") := by
  have h := C7_generate_daily_summary_blocks [⟨"2021-07-06", 30, 80⟩, ⟨"2021-07-07", 20, 90⟩]
    (by simp)
    (by
      intro w hw
      simp only [List.mem_cons, List.not_mem_nil, or_false] at hw
      rcases hw with rfl | rfl <;> rfl)
  rw [h]
  have d1 : okDateStr ⟨"2021-07-06", 30, 80⟩ = "Tuesday 06 July 2021" := rfl
  have d2 : okDateStr ⟨"2021-07-07", 20, 90⟩ = "Wednesday 07 July 2021" := rfl
  have e1 := format_temperature_of_floor (convert_f_to_c_val ((30 : ℤ) : ℚ)) (-11)
    (by norm_num [convert_f_to_c_val, py_round1, rndHalfEven])
  have e2 := format_temperature_of_floor (convert_f_to_c_val ((80 : ℤ) : ℚ)) 267
    (by norm_num [convert_f_to_c_val, py_round1, rndHalfEven])
  have e3 := format_temperature_of_floor (convert_f_to_c_val ((20 : ℤ) : ℚ)) (-67)
    (by norm_num [convert_f_to_c_val, py_round1, rndHalfEven])
  have e4 := format_temperature_of_floor (convert_f_to_c_val ((90 : ℤ) : ℚ)) 322
    (by norm_num [convert_f_to_c_val, py_round1, rndHalfEven])
  simp only [List.map, List.foldr, dailyBlock, d1, d2, e1, e2, e3, e4]
  rfl

lemma calculate_mean_ok (l : List ℚ) (h : l ≠ []) :
    calculate_mean l = .ok (l.sum / l.length) := by
  cases l with
  | nil => exact absurd rfl h
  | cons a as => rfl

/-- C2: on a non-empty record list (whose extreme-record dates parse), the
summary is exactly the header line `<N> Day Overview` followed by four
indented newline-terminated lines and nothing more: the lowest temperature
is the `find_min` of the `minTempF` series converted to Celsius with the
date of the record at the returned index, the highest is the `find_max` of
the `maxTempF` series converted with its record's date, and each average is
the mean of the per-record conversions to Celsius (conversion before
averaging), rounded to one decimal. -/
theorem C2_generate_summary_format (ws : List WeatherRecord) (h : ws ≠ [])
    (m M : ℚ) (i j : ℕ) (dmin dmax : String)
    (hmin : find_min (ws.map (fun w => (w.minTempF : ℚ))) = some (m, i))
    (hmax : find_max (ws.map (fun w => (w.maxTempF : ℚ))) = some (M, j))
    (hdi : convert_date (ws.getD i defaultRecord).date = .ok dmin)
    (hdj : convert_date (ws.getD j defaultRecord).date = .ok dmax) :
    generate_summary ws = .ok (
      toString ws.length ++ " Day Overview\n"
      ++ "  The lowest temperature will be " ++ format_temperature (convert_f_to_c_val m)
      ++ ", and will occur on " ++ dmin ++ ".\n"
      ++ "  The highest temperature will be " ++ format_temperature (convert_f_to_c_val M)
      ++ ", and will occur on " ++ dmax ++ ".\n"
      ++ "  The average low this week is "
      ++ format_temperature (py_round1
          ((ws.map (fun w => convert_f_to_c_val (w.minTempF : ℚ))).sum / ws.length)) ++ ".\n"
      ++ "  The average high this week is "
      ++ format_temperature (py_round1
          ((ws.map (fun w => convert_f_to_c_val (w.maxTempF : ℚ))).sum / ws.length)) ++ ".\n") := by
  have hmean1 := calculate_mean_ok ((ws.map (fun w => (w.minTempF : ℚ))).map convert_f_to_c_val)
    (by simp [h])
  have hmean2 := calculate_mean_ok ((ws.map (fun w => (w.maxTempF : ℚ))).map convert_f_to_c_val)
    (by simp [h])
  simp only [generate_summary]
  rw [if_neg h, hmin, hmax]
  simp only []
  rw [hdi, hdj]
  simp only []
  rw [hmean1, hmean2]
  simp only [List.map_map, List.length_map]
  rfl

set_option maxRecDepth 4000 in
/-- Witness for C2 at the two concrete records of the spec's test data. -/
theorem C2_witness :
    generate_summary [⟨"2021-07-06", 30, 80⟩, ⟨"2021-07-07", 20, 90⟩] =
      .ok ("2 Day Overview\n  The lowest temperature will be -6.7°C, and will occur on Wednesday 07 July 2021.\n  The highest temperature will be 32.2°C, and will occur on Wednesday 07 July 2021.\n  The average low this week is -3.9°C.\n  The average high this week is 29.4°C.\n") := by
  have hmin : find_min (([⟨"2021-07-06", 30, 80⟩, ⟨"2021-07-07", 20, 90⟩] :
      List WeatherRecord).map (fun w => (w.minTempF : ℚ))) = some (20, 1) := by
    norm_num [List.map, find_min, listMinQ, pyIndex, min_def]
  have hmax : find_max (([⟨"2021-07-06", 30, 80⟩, ⟨"2021-07-07", 20, 90⟩] :
      List WeatherRecord).map (fun w => (w.maxTempF : ℚ))) = some (90, 1) := by
    norm_num [List.map, find_max, listMaxQ, pyIndex, max_def]
  have hw := C2_generate_summary_format [⟨"2021-07-06", 30, 80⟩, ⟨"2021-07-07", 20, 90⟩]
    (by simp) 20 90 1 1 "Wednesday 07 July 2021" "Wednesday 07 July 2021" hmin hmax rfl rfl
  rw [hw]
  simp only [List.map, List.sum_cons, List.sum_nil, List.length]
  norm_num [format_temperature, pyReprTenth, convert_f_to_c_val, py_round1, rndHalfEven,
    DEGREE_SYMBOL]
  rfl

lemma natDigitChar_isDigit {k : ℕ} (hk : k < 10) : (natDigitChar k).isDigit = true := by
  interval_cases k <;> rfl

lemma charDigitVal_natDigitChar {k : ℕ} (hk : k < 10) : charDigitVal (natDigitChar k) = k := by
  interval_cases k <;> rfl

lemma digitsToNat_four (y : ℕ) (hy : y < 10000) :
    digitsToNat [natDigitChar (y / 1000), natDigitChar (y / 100 % 10),
      natDigitChar (y / 10 % 10), natDigitChar (y % 10)] = y := by
  simp only [digitsToNat, List.foldl,
    charDigitVal_natDigitChar (show y / 1000 < 10 by omega),
    charDigitVal_natDigitChar (show y / 100 % 10 < 10 by omega),
    charDigitVal_natDigitChar (show y / 10 % 10 < 10 by omega),
    charDigitVal_natDigitChar (show y % 10 < 10 by omega)]
  omega

lemma digitsToNat_two (m : ℕ) (hm : m < 100) :
    digitsToNat [natDigitChar (m / 10), natDigitChar (m % 10)] = m := by
  simp only [digitsToNat, List.foldl,
    charDigitVal_natDigitChar (show m / 10 < 10 by omega),
    charDigitVal_natDigitChar (show m % 10 < 10 by omega)]
  omega

lemma daysInMonth_le (y m : ℕ) : daysInMonth y m ≤ 31 := by
  unfold daysInMonth
  split_ifs <;> omega

lemma parseIso_isoDateString (y m d : ℕ) (hy : y < 10000) (hm : m < 100) (hd : d < 100) :
    parseIso (isoDateString y m d) =
      if validDate y m d then some (y, m, d) else none := by
  unfold isoDateString parseIso parseYMD
  simp only [List.all,
    natDigitChar_isDigit (show y / 1000 < 10 by omega),
    natDigitChar_isDigit (show y / 100 % 10 < 10 by omega),
    natDigitChar_isDigit (show y / 10 % 10 < 10 by omega),
    natDigitChar_isDigit (show y % 10 < 10 by omega),
    natDigitChar_isDigit (show m / 10 < 10 by omega),
    natDigitChar_isDigit (show m % 10 < 10 by omega),
    natDigitChar_isDigit (show d / 10 < 10 by omega),
    natDigitChar_isDigit (show d % 10 < 10 by omega)]
  norm_num
  rw [digitsToNat_four y hy, digitsToNat_two m hm, digitsToNat_two d hd]

/-- C8: `convert_date` parses a `YYYY-MM-DD` ISO string (an optional time
part is accepted and ignored — the rendering uses only the date's own
calendar fields, with no timezone conversion) and renders
`<full weekday name> <zero-padded day> <full month name> <year>`; it fails
with a parse error exactly on invalid inputs: syntactically well-shaped
strings whose calendar fields are out of range, and malformed strings.  In
particular `convert_date "2021-07-06" = "Tuesday 06 July 2021"`. -/
theorem C8_convert_date_spec :
    (∀ y m d : ℕ, 1000 ≤ y → validDate y m d = true →
        convert_date (isoDateString y m d) =
          .ok (weekdayNames.getD (dayOfWeek y m d) "" ++ " " ++ pad2 d ++ " "
            ++ monthNames.getD (m - 1) "" ++ " " ++ toString y)) ∧
    (∀ y m d : ℕ, y < 10000 → m < 100 → d < 100 → validDate y m d = false →
        convert_date (isoDateString y m d) = .error .parseError) ∧
    convert_date "2021-07-06" = .ok "Tuesday 06 July 2021" ∧
    convert_date "2021-07-06 12:30:00" = .ok "Tuesday 06 July 2021" ∧
    convert_date "2021-02-29" = .error .parseError ∧
    convert_date "not-a-date" = .error .parseError := by
  refine ⟨?_, ?_, rfl, rfl, rfl, rfl⟩
  · intro y m d hy hv
    have hdm := daysInMonth_le y m
    have hv' := hv
    simp only [validDate, Bool.and_eq_true, decide_eq_true_eq] at hv'
    unfold convert_date
    rw [parseIso_isoDateString y m d (by omega) (by omega) (by omega), if_pos hv]
    rfl
  · intro y m d hy hm hd hv
    unfold convert_date
    rw [parseIso_isoDateString y m d hy hm hd, if_neg (by simp [hv])]

/-- Witness for C8 at the concrete date 2021-07-06. -/
theorem C8_witness : convert_date (isoDateString 2021 7 6) = .ok "Tuesday 06 July 2021" := by
  have h := C8_convert_date_spec.1 2021 7 6 (by norm_num) (by decide)
  rw [h]
  rfl
